import Mathlib

/-!
Verification development for the FM-200 room-flooding estimation tool
(Safetyguide360). The repository contains several near-identical revisions of
the same calculator; the claims cite three of them:

* `script.js` — class `FM200Calculator` with `collectFormData`,
  `performNFPA2001Calculation`, `calculateSystemCosts`, `round`;
* `unnamed/part_000` — the fullest revision (equipment volume, safety factor,
  clamped net volume) with the same costing code;
* `unnamed/part_004` — an older revision (`calculateFM200`, `calculateCosts`)
  with a zero floor for net volume, a different altitude rule and a different
  markup base.

Numbers are embedded as exact rationals (`ℚ`).  The source applies its
`round(x, 2)` / `round(x, 4)` utility to every field of the returned records;
the embeddings below return the pre-rounding values held in the source's local
variables (the spec states rounding happens at the point of output, not
internally, and the end-to-end claim speaks about the value "before output
rounding").  The rounding utility itself is modelled separately, faithfully to
its string-based JavaScript implementation, as `jsRound` below.
-/

namespace FM200

/-- Calculation constants from `APP_CONFIG` (same in `script.js`,
`part_000`): `SPECIFIC_VAPOR_BASE = 0.1269`. -/
def SPECIFIC_VAPOR_BASE : ℚ := 1269 / 10000

/-- `APP_CONFIG.SPECIFIC_VAPOR_TEMP_FACTOR = 0.0005`. -/
def SPECIFIC_VAPOR_TEMP_FACTOR : ℚ := 5 / 10000

/-- `APP_CONFIG.MIN_CONCENTRATION = 7.0` (used as the fixed concentration `C`
in `part_000`'s calculation). -/
def MIN_CONCENTRATION : ℚ := 7

/-- Form data collected by `part_000`'s `collectFormData` (the numeric fields
the calculation consumes).  `safetyFactor` is already divided by 100 there. -/
structure FormData where
  roomLength : ℚ
  roomWidth : ℚ
  roomHeight : ℚ
  equipmentVolume : ℚ
  minTemperature : ℚ
  altitude : ℚ
  safetyFactor : ℚ
  cylinderSize : ℚ

/-- Form data collected by `script.js`'s `collectFormData`: no equipment
volume, no safety factor, no cylinder size (54.4 is hardcoded downstream), and
the concentration comes from the form. -/
structure ScriptFormData where
  roomLength : ℚ
  roomWidth : ℚ
  roomHeight : ℚ
  designTemperature : ℚ
  altitude : ℚ
  concentration : ℚ

/-- Validation error list built by `part_000`'s `collectFormData`
(lines 352-376): dimension, temperature, altitude and safety-factor checks,
collected in order; the function throws `Error(errors.join(', '))` when the
list is nonempty. -/
def collectFormDataErrors (f : FormData) : List String :=
  (if f.roomLength ≤ 0 ∨ f.roomWidth ≤ 0 ∨ f.roomHeight ≤ 0 then
    ["Room dimensions must be greater than zero"] else []) ++
  (if f.minTemperature < -20 ∨ f.minTemperature > 60 then
    ["Temperature must be between -20°C and 60°C"] else []) ++
  (if f.altitude < 0 then
    ["Altitude cannot be negative"] else []) ++
  (if f.safetyFactor < 1 ∨ f.safetyFactor > 3 / 2 then
    ["Safety factor must be between 100% and 150%"] else [])

/-- Validation error list built by `script.js`'s `collectFormData`
(lines 341-357): only dimensions and concentration are checked — temperature,
altitude and safety factor are not validated at all in this revision. -/
def collectFormDataErrorsScript (f : ScriptFormData) : List String :=
  (if f.roomLength ≤ 0 ∨ f.roomWidth ≤ 0 ∨ f.roomHeight ≤ 0 then
    ["Room dimensions must be greater than zero"] else []) ++
  (if f.concentration < 7 ∨ f.concentration > 21 / 2 then
    ["Concentration must be between 7.0% and 10.5%"] else [])

/-- Sizing result record (pre-rounding values of the local variables of the
calculation functions; the source rounds each numeric field to 2 decimals — 4
for `specificVaporVolume` — when building the returned object). -/
structure SizingResult where
  agentWeight : ℚ
  cylinderCount : ℤ
  nozzleCount : ℤ
  cylinderSize : ℚ
  grossVolume : ℚ
  netVolume : ℚ
  floorArea : ℚ
  pipingLength : ℚ
  specificVaporVolume : ℚ

/-- `part_000`'s `performNFPA2001Calculation` (lines 378-442):
net volume clamped at 0.1, fixed concentration `MIN_CONCENTRATION`, altitude
correction `1 + ((altitude - 500)/300) × 0.01` above 500 m, then the safety
factor, cylinder/nozzle counts and the piping-length heuristic. -/
def performNFPA2001Calculation (f : FormData) : SizingResult :=
  let grossVolume := f.roomLength * f.roomWidth * f.roomHeight
  let netVolume := max (1 / 10) (grossVolume - f.equipmentVolume)
  let specificVaporVolume :=
    SPECIFIC_VAPOR_BASE + SPECIFIC_VAPOR_TEMP_FACTOR * f.minTemperature
  let C := MIN_CONCENTRATION
  let agentWeight0 := netVolume / specificVaporVolume * (C / (100 - C))
  let agentWeight1 :=
    if f.altitude > 500 then
      agentWeight0 * (1 + (f.altitude - 500) / 300 * (1 / 100))
    else agentWeight0
  let agentWeight := agentWeight1 * f.safetyFactor
  let cylinderCount := ⌈agentWeight / f.cylinderSize⌉
  let floorArea := f.roomLength * f.roomWidth
  let nozzleCount := max 2 ⌈floorArea / 50⌉
  let pipingLength := (f.roomLength + f.roomWidth) * 2 + f.roomHeight * 2
  { agentWeight := agentWeight
    cylinderCount := cylinderCount
    nozzleCount := nozzleCount
    cylinderSize := f.cylinderSize
    grossVolume := grossVolume
    netVolume := netVolume
    floorArea := floorArea
    pipingLength := pipingLength
    specificVaporVolume := specificVaporVolume }

/-- `script.js`'s `performNFPA2001Calculation` (lines 401-454): net volume is
simply the gross volume (no equipment subtraction, no floor), concentration
comes from the form, the same altitude rule, no safety factor, cylinder size
hardcoded to 54.4 kg. -/
def performNFPA2001CalculationScript (f : ScriptFormData) : SizingResult :=
  let grossVolume := f.roomLength * f.roomWidth * f.roomHeight
  let netVolume := grossVolume
  let specificVaporVolume :=
    SPECIFIC_VAPOR_BASE + SPECIFIC_VAPOR_TEMP_FACTOR * f.designTemperature
  let agentWeight0 :=
    netVolume / specificVaporVolume * (f.concentration / (100 - f.concentration))
  let agentWeight :=
    if f.altitude > 500 then
      agentWeight0 * (1 + (f.altitude - 500) / 300 * (1 / 100))
    else agentWeight0
  let cylinderSize : ℚ := 544 / 10
  let cylinderCount := ⌈agentWeight / cylinderSize⌉
  let floorArea := f.roomLength * f.roomWidth
  let nozzleCount := max 2 ⌈floorArea / 50⌉
  let pipingLength := (f.roomLength + f.roomWidth) * 2 + f.roomHeight * 2
  { agentWeight := agentWeight
    cylinderCount := cylinderCount
    nozzleCount := nozzleCount
    cylinderSize := cylinderSize
    grossVolume := grossVolume
    netVolume := netVolume
    floorArea := floorArea
    pipingLength := pipingLength
    specificVaporVolume := specificVaporVolume }

/-- `part_004`'s `calculateFM200` (lines 226-272): net volume floored at 0
(not 0.1), concentration from config with default 7.0 (passed here as an
argument), altitude correction `1 + altitude/10000` above 500 m. -/
def calculateFM200 (f : FormData) (concentration : ℚ) : SizingResult :=
  let grossVolume := f.roomLength * f.roomWidth * f.roomHeight
  let netVolume := max 0 (grossVolume - f.equipmentVolume)
  let specificVaporVolume := 1269 / 10000 + 5 / 10000 * f.minTemperature
  let agentWeight0 :=
    netVolume / specificVaporVolume * (concentration / (100 - concentration))
  let agentWeight1 :=
    if f.altitude > 500 then agentWeight0 * (1 + f.altitude / 10000)
    else agentWeight0
  let agentWeight := agentWeight1 * f.safetyFactor
  let cylinderCount := ⌈agentWeight / f.cylinderSize⌉
  let floorArea := f.roomLength * f.roomWidth
  let nozzleCount := max 2 ⌈floorArea / 50⌉
  let pipingLength := (f.roomLength + f.roomWidth) * 2 + f.roomHeight * 2
  { agentWeight := agentWeight
    cylinderCount := cylinderCount
    nozzleCount := nozzleCount
    cylinderSize := f.cylinderSize
    grossVolume := grossVolume
    netVolume := netVolume
    floorArea := floorArea
    pipingLength := pipingLength
    specificVaporVolume := specificVaporVolume }

/-- `COST_MULTIPLIERS` as consumed by `calculateSystemCosts` in `script.js`
and `part_000`: per-unit base-currency prices, fixed fees and the three markup
factors (all numeric when the price table is complete). -/
structure CostMultipliers where
  agentCostPerKg : ℚ
  cylinderCost : ℚ
  valveAssembly : ℚ
  mountingHardware : ℚ
  nozzleCost : ℚ
  pipingCostPerMeter : ℚ
  fittingsCost : ℚ
  detectionPanel : ℚ
  smokeDetector : ℚ
  heatDetector : ℚ
  manualCallPoint : ℚ
  hooterStrobe : ℚ
  warningSigns : ℚ
  installationLaborPerHour : ℚ
  engineeringDesign : ℚ
  commissioningTesting : ℚ
  documentation : ℚ
  installationFactor : ℚ
  engineeringFactor : ℚ
  contingencyFactor : ℚ

/-- Cost breakdown returned by `calculateSystemCosts` (pre-rounding values;
the source rounds each field to 2 decimals, the exchange rate to 4). -/
structure CostBreakdown where
  agentCost : ℚ
  cylinderCost : ℚ
  valveCost : ℚ
  mountingCost : ℚ
  nozzleCost : ℚ
  pipingCost : ℚ
  fittingsCost : ℚ
  detectionCost : ℚ
  smokeDetectors : ℚ
  heatDetectors : ℚ
  manualCallPoints : ℚ
  hooterStrobes : ℚ
  warningSigns : ℚ
  installationLabor : ℚ
  engineeringDesign : ℚ
  commissioningTesting : ℚ
  documentation : ℚ
  equipmentSubtotal : ℚ
  laborSubtotal : ℚ
  installationFactorCost : ℚ
  engineeringFactorCost : ℚ
  contingency : ℚ
  totalUSD : ℚ
  totalConverted : ℚ
  exchangeRate : ℚ
  currency : String

/-- `EXCHANGE_RATES[currency] || 1`: a property read on a plain object,
`undefined` when the key is absent, then the JavaScript `||` falls back to 1
for any falsy value (`undefined`, and also a 0 rate). -/
def lookupRateOr1 (rates : List (String × ℚ)) (currency : String) : ℚ :=
  match rates.lookup currency with
  | none => 1
  | some r => if r = 0 then 1 else r

/-- `calculateSystemCosts` of `script.js` (lines 508-589); `part_000`
(lines 444-560) computes the same values with the same formulas.  Quantities
are drawn from the sizing result; smoke detectors scale with floor area
(`max(2, ceil(floorArea/100))`), heat detectors, call points and
hooter/strobes are the fixed counts 2, 2 and 4; the three markup costs are
each `equipmentSubtotal × (factor - 1)`. -/
def calculateSystemCosts (r : SizingResult) (m : CostMultipliers)
    (rates : List (String × ℚ)) (currency : String) : CostBreakdown :=
  let agentCost := r.agentWeight * m.agentCostPerKg
  let cylinderCost := (r.cylinderCount : ℚ) * m.cylinderCost
  let valveCost := (r.cylinderCount : ℚ) * m.valveAssembly
  let mountingCost := (r.cylinderCount : ℚ) * m.mountingHardware
  let nozzleCost := (r.nozzleCount : ℚ) * m.nozzleCost
  let pipingCost := r.pipingLength * m.pipingCostPerMeter
  let fittingsCost := m.fittingsCost
  let detectionCost := m.detectionPanel
  let smokeDetectors := ((max 2 ⌈r.floorArea / 100⌉ : ℤ) : ℚ) * m.smokeDetector
  let heatDetectors := 2 * m.heatDetector
  let manualCallPoints := 2 * m.manualCallPoint
  let hooterStrobes := 4 * m.hooterStrobe
  let warningSigns := m.warningSigns
  let equipmentSubtotal := agentCost + cylinderCost + valveCost + mountingCost +
    nozzleCost + pipingCost + fittingsCost + detectionCost + smokeDetectors +
    heatDetectors + manualCallPoints + hooterStrobes + warningSigns
  let installationHours := 40 + (r.cylinderCount : ℚ) * 4 +
    (r.nozzleCount : ℚ) * 2 + r.pipingLength * (1 / 2)
  let installationLabor := installationHours * m.installationLaborPerHour
  let installationCost := equipmentSubtotal * (m.installationFactor - 1)
  let engineeringCost := equipmentSubtotal * (m.engineeringFactor - 1)
  let contingency := equipmentSubtotal * (m.contingencyFactor - 1)
  let totalEquipmentAndLabor := equipmentSubtotal + installationLabor +
    m.engineeringDesign + m.commissioningTesting + m.documentation
  let totalUSD := totalEquipmentAndLabor + installationCost + engineeringCost +
    contingency
  let exchangeRate := lookupRateOr1 rates currency
  let totalConverted := totalUSD * exchangeRate
  { agentCost := agentCost
    cylinderCost := cylinderCost
    valveCost := valveCost
    mountingCost := mountingCost
    nozzleCost := nozzleCost
    pipingCost := pipingCost
    fittingsCost := fittingsCost
    detectionCost := detectionCost
    smokeDetectors := smokeDetectors
    heatDetectors := heatDetectors
    manualCallPoints := manualCallPoints
    hooterStrobes := hooterStrobes
    warningSigns := warningSigns
    installationLabor := installationLabor
    engineeringDesign := m.engineeringDesign
    commissioningTesting := m.commissioningTesting
    documentation := m.documentation
    equipmentSubtotal := equipmentSubtotal
    laborSubtotal := installationLabor + m.engineeringDesign +
      m.commissioningTesting + m.documentation
    installationFactorCost := installationCost
    engineeringFactorCost := engineeringCost
    contingency := contingency
    totalUSD := totalUSD
    totalConverted := totalConverted
    exchangeRate := exchangeRate
    currency := currency }

/-- `configData.costMultipliers` as consumed by `part_004`'s
`calculateCosts`: a different key set (no valve/mounting/detector lines, a
lump `installationLabor`, only two markup factors). -/
structure Part004Prices where
  agentCostPerKg : ℚ
  cylinderCost : ℚ
  nozzleCost : ℚ
  pipingCostPerMeter : ℚ
  detectionSystem : ℚ
  actuationDevice : ℚ
  controlPanel : ℚ
  warningSigns : ℚ
  installationLabor : ℚ
  documentation : ℚ
  installationFactor : ℚ
  engineeringFactor : ℚ

/-- Cost result of `part_004`'s `calculateCosts` (pre-rounding values). -/
structure Part004CostResult where
  agentCost : ℚ
  cylinderCost : ℚ
  nozzleCost : ℚ
  pipingCost : ℚ
  detectionCost : ℚ
  actuationCost : ℚ
  controlPanelCost : ℚ
  warningSignsCost : ℚ
  installationLaborCost : ℚ
  documentationCost : ℚ
  equipmentSubtotal : ℚ
  installationCost : ℚ
  engineeringCost : ℚ
  totalCostUSD : ℚ
  totalCostConverted : ℚ
  exchangeRate : ℚ

/-- `part_004`'s `calculateCosts` (lines 275-324): note the installation
markup base is `equipmentSubtotal + installationLaborCost`, and there is no
contingency markup at all. -/
def calculateCosts (r : SizingResult) (m : Part004Prices)
    (rates : List (String × ℚ)) (currency : String) : Part004CostResult :=
  let agentCost := r.agentWeight * m.agentCostPerKg
  let cylinderCost := (r.cylinderCount : ℚ) * m.cylinderCost
  let nozzleCost := (r.nozzleCount : ℚ) * m.nozzleCost
  let pipingCost := r.pipingLength * m.pipingCostPerMeter
  let detectionCost := m.detectionSystem
  let actuationCost := (r.cylinderCount : ℚ) * m.actuationDevice
  let controlPanelCost := m.controlPanel
  let warningSignsCost := m.warningSigns
  let installationLaborCost := m.installationLabor
  let documentationCost := m.documentation
  let equipmentSubtotal := agentCost + cylinderCost + nozzleCost + pipingCost +
    detectionCost + actuationCost + controlPanelCost + warningSignsCost
  let installationCost :=
    (equipmentSubtotal + installationLaborCost) * (m.installationFactor - 1)
  let engineeringCost := equipmentSubtotal * (m.engineeringFactor - 1)
  let totalCostUSD := equipmentSubtotal + installationCost + engineeringCost +
    installationLaborCost + documentationCost
  let exchangeRate := lookupRateOr1 rates currency
  let totalCostConverted := totalCostUSD * exchangeRate
  { agentCost := agentCost
    cylinderCost := cylinderCost
    nozzleCost := nozzleCost
    pipingCost := pipingCost
    detectionCost := detectionCost
    actuationCost := actuationCost
    controlPanelCost := controlPanelCost
    warningSignsCost := warningSignsCost
    installationLaborCost := installationLaborCost
    documentationCost := documentationCost
    equipmentSubtotal := equipmentSubtotal
    installationCost := installationCost
    engineeringCost := engineeringCost
    totalCostUSD := totalCostUSD
    totalCostConverted := totalCostConverted
    exchangeRate := exchangeRate }

/-! ### JavaScript value semantics

`COST_MULTIPLIERS` is a plain object, so a missing key reads as `undefined`,
and any arithmetic on `undefined` (or on `NaN`) yields `NaN`, which then
propagates.  `JSNum` models this: `none` stands for `NaN` (or an `undefined`
operand), `some q` for an ordinary finite number. -/

/-- A JavaScript number that may be `NaN` (or an `undefined` operand about to
coerce to `NaN`): `none` = `NaN`. -/
def JSNum : Type := Option ℚ

instance : DecidableEq JSNum := by
  unfold JSNum
  infer_instance

/-- Lift a known finite number. -/
def jsn (q : ℚ) : JSNum := some q

/-- JavaScript addition: `NaN` propagates. -/
def jadd : JSNum → JSNum → JSNum
  | some a, some b => some (a + b)
  | _, _ => none

/-- JavaScript multiplication: `NaN` propagates (no finite operand here is
an infinity, so `0 × undefined` style cases all give `NaN`). -/
def jmul : JSNum → JSNum → JSNum
  | some a, some b => some (a * b)
  | _, _ => none

/-- JavaScript subtraction: `NaN` propagates. -/
def jsub : JSNum → JSNum → JSNum
  | some a, some b => some (a - b)
  | _, _ => none

/-- `Math.ceil`: `NaN` propagates. -/
def jceil : JSNum → JSNum
  | some a => some ((⌈a⌉ : ℤ) : ℚ)
  | none => none

/-- `Math.max(a, b)`: `NaN` if either argument is `NaN`. -/
def jmax : JSNum → JSNum → JSNum
  | some a, some b => some (max a b)
  | _, _ => none

/-- The price-table object as `calculateSystemCosts` actually reads it: each
property may be present (`some`) or missing (`none`, read as `undefined`). -/
structure JSPriceTable where
  agentCostPerKg : JSNum
  cylinderCost : JSNum
  valveAssembly : JSNum
  mountingHardware : JSNum
  nozzleCost : JSNum
  pipingCostPerMeter : JSNum
  fittingsCost : JSNum
  detectionPanel : JSNum
  smokeDetector : JSNum
  heatDetector : JSNum
  manualCallPoint : JSNum
  hooterStrobe : JSNum
  warningSigns : JSNum
  installationLaborPerHour : JSNum
  engineeringDesign : JSNum
  commissioningTesting : JSNum
  documentation : JSNum
  installationFactor : JSNum
  engineeringFactor : JSNum
  contingencyFactor : JSNum

/-- Cost breakdown under JavaScript value semantics: every field is a number
that may be `NaN`. -/
structure JSCostBreakdown where
  agentCost : JSNum
  cylinderCost : JSNum
  valveCost : JSNum
  mountingCost : JSNum
  nozzleCost : JSNum
  pipingCost : JSNum
  fittingsCost : JSNum
  detectionCost : JSNum
  smokeDetectors : JSNum
  heatDetectors : JSNum
  manualCallPoints : JSNum
  hooterStrobes : JSNum
  warningSigns : JSNum
  installationLabor : JSNum
  equipmentSubtotal : JSNum
  installationFactorCost : JSNum
  engineeringFactorCost : JSNum
  contingency : JSNum
  totalUSD : JSNum
  totalConverted : JSNum
  exchangeRate : JSNum
  currency : String

/-- `script.js`'s `calculateSystemCosts` (lines 508-589) re-embedded under
JavaScript value semantics: there is no key check and no error path of any
kind in the function (nor anywhere in the repository — no `ConfigurationError`
exists), so a missing price key flows through arithmetic as `undefined` and
every dependent figure becomes `NaN`; the function still returns a complete
breakdown object. -/
def calculateSystemCostsJS (r : SizingResult) (m : JSPriceTable)
    (rates : List (String × ℚ)) (currency : String) : JSCostBreakdown :=
  let agentCost := jmul (jsn r.agentWeight) m.agentCostPerKg
  let cylinderCost := jmul (jsn (r.cylinderCount : ℚ)) m.cylinderCost
  let valveCost := jmul (jsn (r.cylinderCount : ℚ)) m.valveAssembly
  let mountingCost := jmul (jsn (r.cylinderCount : ℚ)) m.mountingHardware
  let nozzleCost := jmul (jsn (r.nozzleCount : ℚ)) m.nozzleCost
  let pipingCost := jmul (jsn r.pipingLength) m.pipingCostPerMeter
  let fittingsCost := m.fittingsCost
  let detectionCost := m.detectionPanel
  let smokeDetectors :=
    jmul (jsn ((max 2 ⌈r.floorArea / 100⌉ : ℤ) : ℚ)) m.smokeDetector
  let heatDetectors := jmul (jsn 2) m.heatDetector
  let manualCallPoints := jmul (jsn 2) m.manualCallPoint
  let hooterStrobes := jmul (jsn 4) m.hooterStrobe
  let warningSigns := m.warningSigns
  let equipmentSubtotal :=
    jadd (jadd (jadd (jadd (jadd (jadd (jadd (jadd (jadd (jadd (jadd (jadd
      agentCost cylinderCost) valveCost) mountingCost) nozzleCost) pipingCost)
      fittingsCost) detectionCost) smokeDetectors) heatDetectors)
      manualCallPoints) hooterStrobes) warningSigns
  let installationHours := jsn (40 + (r.cylinderCount : ℚ) * 4 +
    (r.nozzleCount : ℚ) * 2 + r.pipingLength * (1 / 2))
  let installationLabor := jmul installationHours m.installationLaborPerHour
  let installationCost := jmul equipmentSubtotal (jsub m.installationFactor (jsn 1))
  let engineeringCost := jmul equipmentSubtotal (jsub m.engineeringFactor (jsn 1))
  let contingency := jmul equipmentSubtotal (jsub m.contingencyFactor (jsn 1))
  let totalEquipmentAndLabor := jadd (jadd (jadd (jadd equipmentSubtotal
    installationLabor) m.engineeringDesign) m.commissioningTesting)
    m.documentation
  let totalUSD := jadd (jadd (jadd totalEquipmentAndLabor installationCost)
    engineeringCost) contingency
  let exchangeRate := lookupRateOr1 rates currency
  let totalConverted := jmul totalUSD (jsn exchangeRate)
  { agentCost := agentCost
    cylinderCost := cylinderCost
    valveCost := valveCost
    mountingCost := mountingCost
    nozzleCost := nozzleCost
    pipingCost := pipingCost
    fittingsCost := fittingsCost
    detectionCost := detectionCost
    smokeDetectors := smokeDetectors
    heatDetectors := heatDetectors
    manualCallPoints := manualCallPoints
    hooterStrobes := hooterStrobes
    warningSigns := warningSigns
    installationLabor := installationLabor
    equipmentSubtotal := equipmentSubtotal
    installationFactorCost := installationCost
    engineeringFactorCost := engineeringCost
    contingency := contingency
    totalUSD := totalUSD
    totalConverted := totalConverted
    exchangeRate := jsn exchangeRate
    currency := currency }

/-! ### The string-based rounding utility

`script.js` line 1100 (same in `part_000` line 1674 and `part_001`):

    round(value, decimals) {
        return Number(Math.round(value + 'e' + decimals) + 'e-' + decimals);
    }

`value + 'e' + decimals` coerces `value` through the ECMAScript
number-to-string conversion and concatenates; the result is fed back through
`ToNumber`.  The pieces are modelled below for finite-decimal rationals (every
JavaScript number prints as a finite decimal times a power of ten, which is
exactly what the algorithm below consumes). -/

/-- Smallest `e` with `den ∣ 10^e` (searched up to 1200, which covers every
IEEE double): the power of ten clearing the denominator of a finite-decimal
rational. -/
def decExp (den : ℕ) : ℕ :=
  ((List.range 1200).find? (fun e => 10 ^ e % den == 0)).getD 0

/-- A run of `n` zero characters. -/
def zeroRun (n : ℕ) : String :=
  String.mk (List.replicate n '0')

/-- Number of trailing `'0'` characters of a digit string. -/
def trailingZeroCount (s : String) : ℕ :=
  (s.toList.reverse.takeWhile (fun c => c == '0')).length

/-- ECMAScript `Number::toString` (radix 10) for a positive finite-decimal
rational: writing the value as `s × 10^(n-k)` with `s` a positive integer of
`k` digits not divisible by 10, it uses plain positional notation when
`-6 < n ≤ 21` and exponential notation (exponent `n-1`) otherwise.  Since `q`
is stored in lowest terms and `q.den ∣ 10^e`, the integer `q × 10^e` is
computed as `q.num × (10^e / q.den)`. -/
def jsToStringPos (q : ℚ) : String :=
  let e := decExp q.den
  let m := q.num.toNat * (10 ^ e / q.den)
  let str := toString m
  let z := trailingZeroCount str
  let ds := str.take (str.length - z)
  let k : ℤ := ds.length
  let n : ℤ := k + z - e
  if k ≤ n ∧ n ≤ 21 then ds ++ zeroRun (n - k).toNat
  else if 0 < n ∧ n ≤ 21 then ds.take n.toNat ++ "." ++ ds.drop n.toNat
  else if -6 < n ∧ n ≤ 0 then "0." ++ zeroRun (-n).toNat ++ ds
  else
    let expStr := (if n - 1 < 0 then "-" else "+") ++ toString (n - 1).natAbs
    if k = 1 then ds ++ "e" ++ expStr
    else ds.take 1 ++ "." ++ ds.drop 1 ++ "e" ++ expStr

/-- ECMAScript `ToString` of a finite-decimal number: `0 ↦ "0"`, negative
numbers get a leading minus sign. -/
def jsToString (q : ℚ) : String :=
  if q = 0 then "0"
  else if q < 0 then "-" ++ jsToStringPos (-q)
  else jsToStringPos q

/-- `ToString` of a possibly-`NaN` number: `NaN` prints as `"NaN"`. -/
def jsNumToString : JSNum → String
  | none => "NaN"
  | some q => jsToString q

/-- Value of a list of decimal digit characters. -/
def digitsVal (cs : List Char) : ℕ :=
  cs.foldl (fun a c => 10 * a + (c.toNat - 48)) 0

/-- ECMAScript `ToNumber` on a string, for the decimal-literal grammar
`[+|-] (digits [. digits] | . digits) [(e|E) [+|-] digits]` (the empty string
is 0; anything else that fails the grammar — in particular a string with
leftover characters after a parsed literal — is `NaN`, i.e. `none`).  The
strings arising in `round` contain no whitespace and no `Infinity`/hex forms,
so those ECMAScript cases are not modelled. -/
def jsToNumber (s : String) : JSNum :=
  let cs := s.toList
  if cs.isEmpty then some 0
  else
    let sg : ℚ × List Char :=
      match cs with
      | '-' :: t => (-1, t)
      | '+' :: t => (1, t)
      | _ => (1, cs)
    let ip := sg.2.takeWhile Char.isDigit
    let cs2 := sg.2.dropWhile Char.isDigit
    let fp : List Char × List Char :=
      match cs2 with
      | '.' :: t => (t.takeWhile Char.isDigit, t.dropWhile Char.isDigit)
      | _ => ([], cs2)
    if ip.isEmpty ∧ fp.1.isEmpty then none
    else
      let mantissa : ℚ :=
        sg.1 * ((digitsVal ip : ℚ) + (digitsVal fp.1 : ℚ) / 10 ^ fp.1.length)
      match fp.2 with
      | [] => some mantissa
      | c :: t =>
        if c = 'e' ∨ c = 'E' then
          let es : ℤ × List Char :=
            match t with
            | '-' :: u => (-1, u)
            | '+' :: u => (1, u)
            | _ => (1, t)
          let ed := es.2.takeWhile Char.isDigit
          let rest := es.2.dropWhile Char.isDigit
          if ed.isEmpty ∨ ¬rest.isEmpty then none
          else some (mantissa * (10 : ℚ) ^ (es.1 * (digitsVal ed : ℤ)))
        else none

/-- `Math.round`: round half toward positive infinity (`NaN` propagates via
the caller's `Option.map`). -/
def jsMathRound (q : ℚ) : ℚ :=
  ((⌊q + 1 / 2⌋ : ℤ) : ℚ)

/-- The shared `round(value, decimals)` utility of `script.js`/`part_000`/
`part_001`, modelled operation by operation:
`Number(Math.round(value + 'e' + decimals) + 'e-' + decimals)`. -/
def jsRound (value : JSNum) (decimals : ℕ) : JSNum :=
  let s1 := jsNumToString value ++ "e" ++ toString decimals
  let r := (jsToNumber s1).map jsMathRound
  let s2 := jsNumToString r ++ "e-" ++ toString decimals
  jsToNumber s2

/-! ### Validity predicate and concrete inputs -/

/-- A form input accepted by `part_000`'s validation (empty error list): this
is the repository's notion of a valid room input. -/
def ValidFormData (f : FormData) : Prop :=
  collectFormDataErrors f = []

instance (f : FormData) : Decidable (ValidFormData f) :=
  inferInstanceAs (Decidable (collectFormDataErrors f = []))

/-- The end-to-end scenario input: room 10 m × 8 m × 4 m, no equipment
volume, 20 °C, sea level, safety factor 1.07, cylinder size 54.4 kg
(`part_000`'s defaults). -/
def c1Input : FormData :=
  ⟨10, 8, 4, 0, 20, 0, 107 / 100, 544 / 10⟩

/-- A `script.js` form input with an out-of-range design temperature
(−300 °C) that its `collectFormData` never checks. -/
def scriptBadTempInput : ScriptFormData :=
  ⟨10, 8, 3, -300, 0, 15 / 2⟩

/-- A 1 m³ room whose equipment volume (5 m³) exceeds its gross volume. -/
def clampInput : FormData :=
  ⟨1, 1, 1, 5, 20, 0, 1, 544 / 10⟩

/-- The end-to-end room at 800 m altitude, safety factor 1.0. -/
def alt800Input : FormData :=
  ⟨10, 8, 4, 0, 20, 800, 1, 544 / 10⟩

/-- The end-to-end room at exactly 500 m altitude, safety factor 1.0. -/
def alt500Input : FormData :=
  ⟨10, 8, 4, 0, 20, 500, 1, 544 / 10⟩

/-- A valid input whose net volume sits on the 0.1 clamp: equipment volume
100 m³ in a 1 m³ room. -/
def monoInputA : FormData :=
  ⟨1, 1, 1, 100, 20, 0, 1, 544 / 10⟩

/-- A small exchange-rate table. -/
def sampleRates : List (String × ℚ) :=
  [("USD", 1), ("INR", 83), ("EUR", 92 / 100)]

/-- A complete cost-multiplier table with simple concrete prices and the
repository's default factors 1.28 / 1.15 / 1.10. -/
def sampleMultipliers : CostMultipliers :=
  ⟨97 / 2, 1250, 450, 100, 75, 30, 500, 2000, 50, 40, 30, 60, 20, 50,
    1500, 1000, 500, 32 / 25, 23 / 20, 11 / 10⟩

/-- A concrete price table in `part_004`'s key set, with a nonzero lump
installation labor of 1000 and factors 1.28 / 1.15. -/
def samplePart004Prices : Part004Prices :=
  ⟨97 / 2, 1250, 75, 30, 2000, 150, 1000, 20, 1000, 500, 32 / 25, 23 / 20⟩

/-- `sampleMultipliers` as a JavaScript object with the `agentCostPerKg`
property missing. -/
def missingAgentPriceTable : JSPriceTable :=
  ⟨none, jsn 1250, jsn 450, jsn 100, jsn 75, jsn 30, jsn 500, jsn 2000,
    jsn 50, jsn 40, jsn 30, jsn 60, jsn 20, jsn 50, jsn 1500, jsn 1000,
    jsn 500, jsn (32 / 25), jsn (23 / 20), jsn (11 / 10)⟩

/-- The sizing result of the end-to-end scenario. -/
def c1Sizing : SizingResult :=
  performNFPA2001Calculation c1Input

/-- A simple concrete sizing result (100 kg of agent, 2 cylinders, 2 nozzles,
44 m of piping, 80 m² floor). -/
def simpleSizing : SizingResult :=
  ⟨100, 2, 2, 544 / 10, 320, 320, 80, 44, 1369 / 10000⟩

/-- The value `1e-7 = 10⁻⁷` as a rational in lowest terms (given as raw
numerator and denominator so that its fields are directly computable). -/
def q1e7 : ℚ :=
  ⟨1, 10000000, by norm_num, by simp⟩

/-! ### Theorems -/

/-- Unfolding of `part_000`'s validation: an input passes exactly when every
field satisfies its domain constraint. -/
theorem validFormData_iff (f : FormData) :
    ValidFormData f ↔
      (0 < f.roomLength ∧ 0 < f.roomWidth ∧ 0 < f.roomHeight) ∧
      (-20 ≤ f.minTemperature ∧ f.minTemperature ≤ 60) ∧
      0 ≤ f.altitude ∧
      (1 ≤ f.safetyFactor ∧ f.safetyFactor ≤ 3 / 2) := by
  simp only [ValidFormData, collectFormDataErrors, List.append_eq_nil,
    ite_eq_right_iff, List.cons_ne_nil, imp_false, not_or, not_lt, not_le]
  tauto

/-- Monotonicity core for `part_000`'s sizing: with temperature, altitude,
safety factor and equipment volume shared, a strictly larger gross volume and
an inactive clamp give strictly larger net volume and agent weight. -/
theorem sizing_lt_of_gross_lt (f g : FormData)
    (hT : g.minTemperature = f.minTemperature)
    (halt : g.altitude = f.altitude)
    (hsf : g.safetyFactor = f.safetyFactor)
    (heq : g.equipmentVolume = f.equipmentVolume)
    (hT20 : -20 ≤ f.minTemperature)
    (hsf1 : 1 ≤ f.safetyFactor)
    (hclamp : 1 / 10 ≤ f.roomLength * f.roomWidth * f.roomHeight - f.equipmentVolume)
    (hlt : f.roomLength * f.roomWidth * f.roomHeight <
      g.roomLength * g.roomWidth * g.roomHeight) :
    (performNFPA2001Calculation f).netVolume <
      (performNFPA2001Calculation g).netVolume ∧
    (performNFPA2001Calculation f).agentWeight <
      (performNFPA2001Calculation g).agentWeight := by
  have hclampg : 1 / 10 ≤ g.roomLength * g.roomWidth * g.roomHeight - g.equipmentVolume := by
    rw [heq]; linarith
  have hS : 0 < SPECIFIC_VAPOR_BASE + SPECIFIC_VAPOR_TEMP_FACTOR * f.minTemperature := by
    unfold SPECIFIC_VAPOR_BASE SPECIFIC_VAPOR_TEMP_FACTOR
    nlinarith
  have hc : 0 < MIN_CONCENTRATION / (100 - MIN_CONCENTRATION) := by
    norm_num [MIN_CONCENTRATION]
  have hsfpos : 0 < f.safetyFactor := by linarith
  have hnet : max (1 / 10) (f.roomLength * f.roomWidth * f.roomHeight - f.equipmentVolume) <
      max (1 / 10) (g.roomLength * g.roomWidth * g.roomHeight - g.equipmentVolume) := by
    rw [max_eq_right hclamp, max_eq_right hclampg, heq]
    linarith
  constructor
  · simpa only [performNFPA2001Calculation] using hnet
  · simp only [performNFPA2001Calculation, hT, halt, hsf, heq]
    set S := SPECIFIC_VAPOR_BASE + SPECIFIC_VAPOR_TEMP_FACTOR * f.minTemperature with hSdef
    set nf := max (1 / 10) (f.roomLength * f.roomWidth * f.roomHeight - f.equipmentVolume) with hnf
    set ng := max (1 / 10) (g.roomLength * g.roomWidth * g.roomHeight - f.equipmentVolume) with hng
    have hnet2 : nf < ng := by
      rw [hnf, hng]
      rw [max_eq_right hclamp]
      rw [max_eq_right (heq ▸ hclampg)]
      linarith
    have hSi : 0 < S⁻¹ := inv_pos.mpr hS
    rw [div_eq_mul_inv, div_eq_mul_inv]
    by_cases hA : f.altitude > 500
    · simp only [if_pos hA]
      have hAf : 0 < 1 + (f.altitude - 500) / 300 * (1 / 100) := by nlinarith
      exact mul_lt_mul_of_pos_right
        (mul_lt_mul_of_pos_right
          (mul_lt_mul_of_pos_right (mul_lt_mul_of_pos_right hnet2 hSi) hc) hAf)
        hsfpos
    · simp only [if_neg hA]
      exact mul_lt_mul_of_pos_right
        (mul_lt_mul_of_pos_right (mul_lt_mul_of_pos_right hnet2 hSi) hc) hsfpos

/-- C1 (counterexample): at the end-to-end scenario input, the pre-rounding
agent weight of `part_000`'s `performNFPA2001Calculation` lies strictly
between 188 and 189 kg — it is nowhere near the 176.3 kg the claim asserts
(the claim's own formula `(320/0.1369) × (7/93) × 1.07` evaluates to
≈ 188.25, not ≈ 176.3). -/
theorem c1_agentWeight_not_approx_176 :
    188 < (performNFPA2001Calculation c1Input).agentWeight ∧
      (performNFPA2001Calculation c1Input).agentWeight < 189 := by
  constructor <;>
    norm_num [performNFPA2001Calculation, c1Input, SPECIFIC_VAPOR_BASE,
      SPECIFIC_VAPOR_TEMP_FACTOR, MIN_CONCENTRATION, max_def]

/-- C1 (amended): the end-to-end scenario: `specificVaporVolume = 0.1369`,
`grossVolume = netVolume = 320`, `agentWeight = (320/0.1369)×(7/93)×1.07`
exactly (≈ 188.25 kg, not 176.3 kg), `cylinderCount = 4`, `nozzleCount = 2`,
`pipingLength = 44`. -/
theorem c1_end_to_end :
    (performNFPA2001Calculation c1Input).specificVaporVolume = 1369 / 10000 ∧
    (performNFPA2001Calculation c1Input).grossVolume = 320 ∧
    (performNFPA2001Calculation c1Input).netVolume = 320 ∧
    (performNFPA2001Calculation c1Input).agentWeight =
      320 / (1369 / 10000) * (7 / 93) * (107 / 100) ∧
    (performNFPA2001Calculation c1Input).cylinderCount = 4 ∧
    (performNFPA2001Calculation c1Input).nozzleCount = 2 ∧
    (performNFPA2001Calculation c1Input).pipingLength = 44 := by
  have hc1 : (⌈(7490000 : ℚ) / 2164389⌉ : ℤ) = 4 := by
    rw [Int.ceil_eq_iff]
    norm_num
  have hc2 : (⌈(8 : ℚ) / 5⌉ : ℤ) = 2 := by
    rw [Int.ceil_eq_iff]
    norm_num
  norm_num [performNFPA2001Calculation, c1Input, SPECIFIC_VAPOR_BASE,
    SPECIFIC_VAPOR_TEMP_FACTOR, MIN_CONCENTRATION, max_def, hc1, hc2]

/-- C2 (counterexample): in `part_004`'s `calculateCosts`, the installation
markup is not `equipmentSubtotal × (installationFactor − 1)`: its base also
includes the lump installation labor, so at a concrete sizing result and
price table the two differ (by `1000 × 0.28 = 280` here). -/
theorem c2_markup_base_not_equipment_only :
    (calculateCosts simpleSizing samplePart004Prices sampleRates "USD").installationCost ≠
      (calculateCosts simpleSizing samplePart004Prices sampleRates "USD").equipmentSubtotal *
        (samplePart004Prices.installationFactor - 1) := by
  norm_num [calculateCosts, simpleSizing, samplePart004Prices]

/-- C2 (amended): in `calculateSystemCosts` (the `script.js` / `part_000`
costing), the sum of the three markup costs equals
`equipmentSubtotal × (installationFactor + engineeringFactor +
contingencyFactor − 3)` for every sizing result and price table — each markup
is based on the equipment subtotal alone; the `part_004` revision
`calculateCosts` instead bases its installation markup on
`equipmentSubtotal + installationLabor` and has no contingency markup. -/
theorem c2_markup_sum_invariant (r : SizingResult) (m : CostMultipliers)
    (rates : List (String × ℚ)) (currency : String) :
    (calculateSystemCosts r m rates currency).installationFactorCost +
      (calculateSystemCosts r m rates currency).engineeringFactorCost +
      (calculateSystemCosts r m rates currency).contingency =
    (calculateSystemCosts r m rates currency).equipmentSubtotal *
      (m.installationFactor + m.engineeringFactor + m.contingencyFactor - 3) := by
  simp only [calculateSystemCosts]
  ring

/-- C3 (counterexample): `part_004`'s `calculateFM200` floors the net volume
at 0, not at 0.1: with 5 m³ of equipment in a 1 m³ room it returns
`netVolume = 0` — zero, not the claimed epsilon 0.1. -/
theorem c3_netVolume_zero_in_part004 :
    (calculateFM200 clampInput 7).netVolume = 0 := by
  norm_num [calculateFM200, clampInput, max_def]

/-- C3 (amended): in `part_000`'s `performNFPA2001Calculation`,
`netVolume = max(0.1, grossVolume − equipmentVolume)` for every input, is
always strictly positive, and equals the 0.1 floor whenever the equipment
volume reaches the gross volume; the `part_004` revision `calculateFM200`
instead floors at 0 and does return a zero net volume. -/
theorem c3_netVolume_clamped (f : FormData) :
    (performNFPA2001Calculation f).netVolume =
      max (1 / 10) ((performNFPA2001Calculation f).grossVolume - f.equipmentVolume) ∧
    0 < (performNFPA2001Calculation f).netVolume ∧
    (f.roomLength * f.roomWidth * f.roomHeight ≤ f.equipmentVolume →
      (performNFPA2001Calculation f).netVolume = 1 / 10) := by
  refine ⟨rfl, ?_, ?_⟩
  · exact lt_of_lt_of_le (by norm_num) (le_max_left _ _)
  · intro h
    simp only [performNFPA2001Calculation]
    exact max_eq_left (by linarith)

/-- C3 (witness): concrete instance of the amended claim at a room whose
equipment volume exceeds its gross volume. -/
theorem c3_netVolume_clamped_w :
    (performNFPA2001Calculation clampInput).netVolume = 1 / 10 := by
  exact (c3_netVolume_clamped clampInput).2.2 (by norm_num [clampInput])

/-- C4 (counterexample): `part_004`'s `calculateFM200` uses the altitude
factor `1 + altitude/10000` above 500 m, so at 800 m it multiplies the base
agent weight by 1.08, not by the claimed 1.01: the computed weight differs
from `base × 1.01`. -/
theorem c4_altitude_factor_wrong_in_part004 :
    (calculateFM200 alt800Input 7).agentWeight ≠
      (calculateFM200 { alt800Input with altitude := 0 } 7).agentWeight *
        (101 / 100) := by
  norm_num [calculateFM200, alt800Input, max_def]

/-- C4 (amended): `part_000`'s `performNFPA2001Calculation` applies no
altitude correction at or below 500 m (the weight equals the weight at
altitude 0), and above 500 m multiplies the agent weight by exactly
`1 + ((altitude − 500)/300) × 0.01`; the `part_004` revision `calculateFM200`
instead multiplies by `1 + altitude/10000` above 500 m (1.08 at 800 m, not
1.01). -/
theorem c4_altitude_threshold (f : FormData) :
    (f.altitude ≤ 500 →
      (performNFPA2001Calculation f).agentWeight =
        (performNFPA2001Calculation { f with altitude := 0 }).agentWeight) ∧
    (500 < f.altitude →
      (performNFPA2001Calculation f).agentWeight =
        (performNFPA2001Calculation { f with altitude := 0 }).agentWeight *
          (1 + (f.altitude - 500) / 300 * (1 / 100))) := by
  constructor
  · intro h
    simp only [performNFPA2001Calculation]
    rw [if_neg (by linarith), if_neg (by norm_num)]
  · intro h
    simp only [performNFPA2001Calculation]
    rw [if_pos (by linarith), if_neg (by norm_num)]
    ring

/-- C4 (witness): at 500 m the weight coincides with the sea-level weight,
and at 800 m the correction factor is exactly 1.01. -/
theorem c4_altitude_threshold_w :
    (performNFPA2001Calculation alt500Input).agentWeight =
      (performNFPA2001Calculation { alt500Input with altitude := 0 }).agentWeight ∧
    (performNFPA2001Calculation alt800Input).agentWeight =
      (performNFPA2001Calculation { alt800Input with altitude := 0 }).agentWeight *
        (101 / 100) := by
  constructor
  · exact (c4_altitude_threshold alt500Input).1 (by norm_num [alt500Input])
  · have h := (c4_altitude_threshold alt800Input).2 (by norm_num [alt800Input])
    have hf : (1 + (alt800Input.altitude - 500) / 300 * (1 / 100) : ℚ) = 101 / 100 := by
      norm_num [alt800Input]
    rw [h, hf]

/-- C5: the repository's costing has no configuration check and no
`ConfigurationError` (the identifier does not occur anywhere in the sources):
with `agentCostPerKg` missing from the price table, `calculateSystemCosts`
still returns a complete breakdown whose agent cost, equipment subtotal and
totals are `NaN` — the missing key is silently absorbed instead of being
reported, contradicting the claimed (and spec-intended) fail-fast behavior. -/
theorem c5_missing_key_silently_returns_nan :
    (calculateSystemCostsJS c1Sizing missingAgentPriceTable sampleRates "USD").agentCost = none ∧
    (calculateSystemCostsJS c1Sizing missingAgentPriceTable sampleRates "USD").equipmentSubtotal = none ∧
    (calculateSystemCostsJS c1Sizing missingAgentPriceTable sampleRates "USD").totalUSD = none ∧
    (calculateSystemCostsJS c1Sizing missingAgentPriceTable sampleRates "USD").totalConverted = none := by
  refine ⟨rfl, rfl, rfl, rfl⟩

/-- C6: `script.js`'s validation (`collectFormData`) checks only dimensions
and concentration, so a design temperature of −300 °C passes with no error,
and `performNFPA2001Calculation` then computes a negative specific vapor
volume and a negative agent weight — exactly the nonsensical silent result
the claim says an `InvalidInputError` must prevent (no such error type exists
in the repository). -/
theorem c6_invalid_temperature_passes_validation :
    collectFormDataErrorsScript scriptBadTempInput = [] ∧
    (performNFPA2001CalculationScript scriptBadTempInput).agentWeight < 0 := by
  constructor
  · norm_num [collectFormDataErrorsScript, scriptBadTempInput]
  · norm_num [performNFPA2001CalculationScript, scriptBadTempInput,
      SPECIFIC_VAPOR_BASE, SPECIFIC_VAPOR_TEMP_FACTOR]

/-- C7: when the requested display currency is absent from the exchange-rate
table, `calculateSystemCosts` uses rate 1 (`EXCHANGE_RATES[currency] || 1`)
and the converted total equals the base-currency total; the function is total
and returns the full breakdown. -/
theorem c7_unknown_currency_falls_back_to_rate_1 (r : SizingResult)
    (m : CostMultipliers) (rates : List (String × ℚ)) (currency : String)
    (h : rates.lookup currency = none) :
    (calculateSystemCosts r m rates currency).exchangeRate = 1 ∧
    (calculateSystemCosts r m rates currency).totalConverted =
      (calculateSystemCosts r m rates currency).totalUSD := by
  constructor
  · simp only [calculateSystemCosts, lookupRateOr1, h]
  · simp only [calculateSystemCosts, lookupRateOr1, h]
    rw [mul_one]

/-- C7 (witness): the sample table has no `"GBP"` entry, so the rate is 1 and
the converted total equals the USD total. -/
theorem c7_unknown_currency_falls_back_to_rate_1_w :
    (calculateSystemCosts simpleSizing sampleMultipliers sampleRates "GBP").exchangeRate = 1 ∧
    (calculateSystemCosts simpleSizing sampleMultipliers sampleRates "GBP").totalConverted =
      (calculateSystemCosts simpleSizing sampleMultipliers sampleRates "GBP").totalUSD := by
  exact c7_unknown_currency_falls_back_to_rate_1 simpleSizing sampleMultipliers
    sampleRates "GBP" rfl

/-- C8 (counterexample): at the valid input `monoInputA` (100 m³ of equipment
in a 1 m³ room), increasing the length from 1 m to 2 m strictly increases the
gross volume but leaves `netVolume` (clamped at 0.1) and `agentWeight`
unchanged — the claimed strict monotonicity of net volume and agent weight
fails. -/
theorem c8_clamped_room_not_strictly_monotonic :
    ValidFormData monoInputA ∧
    monoInputA.roomLength < ({ monoInputA with roomLength := 2 } : FormData).roomLength ∧
    (performNFPA2001Calculation { monoInputA with roomLength := 2 }).netVolume =
      (performNFPA2001Calculation monoInputA).netVolume ∧
    (performNFPA2001Calculation { monoInputA with roomLength := 2 }).agentWeight =
      (performNFPA2001Calculation monoInputA).agentWeight := by
  refine ⟨?_, by norm_num [monoInputA], ?_, ?_⟩
  · rw [validFormData_iff]
    norm_num [monoInputA]
  · norm_num [performNFPA2001Calculation, monoInputA, max_def]
  · norm_num [performNFPA2001Calculation, monoInputA, max_def,
      SPECIFIC_VAPOR_BASE, SPECIFIC_VAPOR_TEMP_FACTOR, MIN_CONCENTRATION]

/-- C8 (amended): for every valid room input whose net-volume clamp is
inactive (`grossVolume − equipmentVolume ≥ 0.1`), strictly increasing any one
of length, width or height strictly increases `grossVolume`, `netVolume` and
`agentWeight`; when the 0.1 clamp is active (equipment volume at least the
gross volume), gross volume still strictly increases but net volume and agent
weight can stay constant. -/
theorem c8_volume_monotonic (f : FormData) (x : ℚ) (hv : ValidFormData f)
    (hclamp : 1 / 10 ≤ f.roomLength * f.roomWidth * f.roomHeight - f.equipmentVolume) :
    (f.roomLength < x →
      (performNFPA2001Calculation f).grossVolume <
        (performNFPA2001Calculation { f with roomLength := x }).grossVolume ∧
      (performNFPA2001Calculation f).netVolume <
        (performNFPA2001Calculation { f with roomLength := x }).netVolume ∧
      (performNFPA2001Calculation f).agentWeight <
        (performNFPA2001Calculation { f with roomLength := x }).agentWeight) ∧
    (f.roomWidth < x →
      (performNFPA2001Calculation f).grossVolume <
        (performNFPA2001Calculation { f with roomWidth := x }).grossVolume ∧
      (performNFPA2001Calculation f).netVolume <
        (performNFPA2001Calculation { f with roomWidth := x }).netVolume ∧
      (performNFPA2001Calculation f).agentWeight <
        (performNFPA2001Calculation { f with roomWidth := x }).agentWeight) ∧
    (f.roomHeight < x →
      (performNFPA2001Calculation f).grossVolume <
        (performNFPA2001Calculation { f with roomHeight := x }).grossVolume ∧
      (performNFPA2001Calculation f).netVolume <
        (performNFPA2001Calculation { f with roomHeight := x }).netVolume ∧
      (performNFPA2001Calculation f).agentWeight <
        (performNFPA2001Calculation { f with roomHeight := x }).agentWeight) := by
  obtain ⟨⟨hl, hw, hh⟩, ⟨hT1, hT2⟩, halt, hsf1, hsf2⟩ := (validFormData_iff f).mp hv
  refine ⟨fun hx => ?_, fun hx => ?_, fun hx => ?_⟩
  · have hg : f.roomLength * f.roomWidth * f.roomHeight <
        x * f.roomWidth * f.roomHeight := by
      nlinarith [mul_pos hw hh]
    have hmain := sizing_lt_of_gross_lt f { f with roomLength := x }
      rfl rfl rfl rfl hT1 hsf1 hclamp hg
    exact ⟨by simpa only [performNFPA2001Calculation] using hg, hmain.1, hmain.2⟩
  · have hg : f.roomLength * f.roomWidth * f.roomHeight <
        f.roomLength * x * f.roomHeight := by
      nlinarith [mul_pos hl hh]
    have hmain := sizing_lt_of_gross_lt f { f with roomWidth := x }
      rfl rfl rfl rfl hT1 hsf1 hclamp hg
    exact ⟨by simpa only [performNFPA2001Calculation] using hg, hmain.1, hmain.2⟩
  · have hg : f.roomLength * f.roomWidth * f.roomHeight <
        f.roomLength * f.roomWidth * x := by
      nlinarith [mul_pos hl hw]
    have hmain := sizing_lt_of_gross_lt f { f with roomHeight := x }
      rfl rfl rfl rfl hT1 hsf1 hclamp hg
    exact ⟨by simpa only [performNFPA2001Calculation] using hg, hmain.1, hmain.2⟩

/-- C8 (witness): increasing the length of the end-to-end room from 10 m to
11 m strictly increases gross volume, net volume and agent weight. -/
theorem c8_volume_monotonic_w :
    (performNFPA2001Calculation c1Input).grossVolume <
      (performNFPA2001Calculation { c1Input with roomLength := 11 }).grossVolume ∧
    (performNFPA2001Calculation c1Input).netVolume <
      (performNFPA2001Calculation { c1Input with roomLength := 11 }).netVolume ∧
    (performNFPA2001Calculation c1Input).agentWeight <
      (performNFPA2001Calculation { c1Input with roomLength := 11 }).agentWeight := by
  exact (c8_volume_monotonic c1Input 11
    ((validFormData_iff c1Input).mpr (by norm_num [c1Input]))
    (by norm_num [c1Input])).1 (by norm_num [c1Input])

/-- C9: for every sizing result and price table, `calculateSystemCosts`
charges exactly 2 heat detectors, 2 manual call points and 4 hooter/strobes
(fixed counts independent of the room), and
`max(2, ceil(floorArea/100))` smoke detectors. -/
theorem c9_detector_device_counts (r : SizingResult) (m : CostMultipliers)
    (rates : List (String × ℚ)) (currency : String) :
    (calculateSystemCosts r m rates currency).heatDetectors = 2 * m.heatDetector ∧
    (calculateSystemCosts r m rates currency).manualCallPoints = 2 * m.manualCallPoint ∧
    (calculateSystemCosts r m rates currency).hooterStrobes = 4 * m.hooterStrobe ∧
    (calculateSystemCosts r m rates currency).smokeDetectors =
      ((max 2 ⌈r.floorArea / 100⌉ : ℤ) : ℚ) * m.smokeDetector := by
  refine ⟨rfl, rfl, rfl, rfl⟩

set_option maxRecDepth 8000 in
/-- C10: the shared `round(value, decimals)` utility is not total over
positive finite inputs: at the positive value `1e-7` (whose ECMAScript string
form is exponential, so `value + 'e' + decimals` yields the unparsable
`"1e-7e2"`), it returns `NaN` instead of the rounded value. -/
theorem c10_round_returns_nan_on_small_positive :
    q1e7 = 1 / 10000000 ∧ 0 < q1e7 ∧ jsRound (some q1e7) 2 = none := by
  refine ⟨?_, Rat.num_pos.mp (by decide), rfl⟩
  rw [q1e7, Rat.mk'_eq_divInt, Rat.divInt_eq_div]
  norm_num

end FM200
